import Mathlib

/-!
# RabbitMQ password-hash generator (`main.go`)

A shallow embedding of the command-line tool of `main.go` and the properties of
its output.

The tool reads three flags (`-algorithm`, `-password`, `-help`), produces a
4-byte salt with `generateSalt`, hashes `salt ++ password` with SHA-256 or MD5
and prints `base64 (salt ++ digest)` on standard output.

Layout:

* bytes and 32-bit word arithmetic (Go `byte`, `uint32`);
* the Go standard-library functions the program calls, as executable
  definitions: `sha256.Sum256` (FIPS 180-4), `md5.Sum` (RFC 1321) and
  `base64.StdEncoding.EncodeToString` (RFC 4648), together with the RFC 4648
  decoder a verifier of the printed text runs;
* the program: `generateSalt`, `generateHashSha256`, `generateHashMd5`, `main`.
  A run of `main` is a function of the parsed flags, of `os.Args[0]` and of the
  outcome of the one `rand.Read` call, and yields what was written to standard
  output and standard error, the exit code and the number of reads of the
  random source;
* lemmas on the library functions, then the theorems on the program.
-/

namespace RabbitHash

/-! ## Bytes and 32-bit words -/

/-- A Go `byte`. -/
abbrev Byte := Fin 256

/-- A Go `[]byte`; a Go `string` is the same sequence of bytes. -/
abbrev Bytes := List Byte

/-- The conversion `byte(n)`: the low 8 bits of `n`. -/
def byteOf (n : Nat) : Byte := ⟨n % 256, Nat.mod_lt n (by decide)⟩

/-- The bytes of an ASCII string literal. -/
def asciiBytes (s : String) : Bytes := s.toList.map (fun c => byteOf c.toNat)

/-- Addition of `uint32` values. -/
def add32 (a b : Nat) : Nat := (a + b) % 4294967296

/-- Bitwise complement of a `uint32`. -/
def not32 (x : Nat) : Nat := x ^^^ 0xFFFFFFFF

/-- The function `bits.RotateLeft32 x k` for `0 < k < 32`. -/
def rotl32 (x k : Nat) : Nat := ((x <<< k) ||| (x >>> (32 - k))) % 4294967296

/-- Rotation to the right of a `uint32` by `0 < k < 32` bits. -/
def rotr32 (x k : Nat) : Nat := ((x >>> k) ||| (x <<< (32 - k))) % 4294967296

/-- The four bytes of a `uint32`, most significant first. -/
def be32Bytes (w : Nat) : Bytes :=
  [byteOf (w >>> 24), byteOf (w >>> 16), byteOf (w >>> 8), byteOf w]

/-- The four bytes of a `uint32`, least significant first. -/
def le32Bytes (w : Nat) : Bytes :=
  [byteOf w, byteOf (w >>> 8), byteOf (w >>> 16), byteOf (w >>> 24)]

/-- The eight bytes of a `uint64`, most significant first. -/
def be64Bytes (n : Nat) : Bytes :=
  be32Bytes (n >>> 32) ++ be32Bytes n

/-- The eight bytes of a `uint64`, least significant first. -/
def le64Bytes (n : Nat) : Bytes :=
  le32Bytes n ++ le32Bytes (n >>> 32)

/-- Big-endian `uint32` words of a byte sequence, four bytes at a time. -/
def beWords : Bytes → List Nat
  | a :: b :: c :: d :: rest =>
      ((a.val <<< 24) ||| (b.val <<< 16) ||| (c.val <<< 8) ||| d.val) :: beWords rest
  | _ => []

/-- Little-endian `uint32` words of a byte sequence, four bytes at a time. -/
def leWords : Bytes → List Nat
  | a :: b :: c :: d :: rest =>
      (a.val ||| (b.val <<< 8) ||| (c.val <<< 16) ||| (d.val <<< 24)) :: leWords rest
  | _ => []

/-! ## `crypto/sha256` : `sha256.Sum256` (FIPS 180-4) -/

/-- The eight working variables of SHA-256. -/
structure Sha256State where
  a : Nat
  b : Nat
  c : Nat
  d : Nat
  e : Nat
  f : Nat
  g : Nat
  h : Nat
deriving DecidableEq, Repr

/-- Initial hash value of SHA-256. -/
def sha256Init : Sha256State :=
  ⟨0x6a09e667, 0xbb67ae85, 0x3c6ef372, 0xa54ff53a,
   0x510e527f, 0x9b05688c, 0x1f83d9ab, 0x5be0cd19⟩

/-- Round constants of SHA-256. -/
def sha256K : List Nat :=
  [0x428a2f98, 0x71374491, 0xb5c0fbcf, 0xe9b5dba5, 0x3956c25b, 0x59f111f1, 0x923f82a4, 0xab1c5ed5,
   0xd807aa98, 0x12835b01, 0x243185be, 0x550c7dc3, 0x72be5d74, 0x80deb1fe, 0x9bdc06a7, 0xc19bf174,
   0xe49b69c1, 0xefbe4786, 0x0fc19dc6, 0x240ca1cc, 0x2de92c6f, 0x4a7484aa, 0x5cb0a9dc, 0x76f988da,
   0x983e5152, 0xa831c66d, 0xb00327c8, 0xbf597fc7, 0xc6e00bf3, 0xd5a79147, 0x06ca6351, 0x14292967,
   0x27b70a85, 0x2e1b2138, 0x4d2c6dfc, 0x53380d13, 0x650a7354, 0x766a0abb, 0x81c2c92e, 0x92722c85,
   0xa2bfe8a1, 0xa81a664b, 0xc24b8b70, 0xc76c51a3, 0xd192e819, 0xd6990624, 0xf40e3585, 0x106aa070,
   0x19a4c116, 0x1e376c08, 0x2748774c, 0x34b0bcb5, 0x391c0cb3, 0x4ed8aa4a, 0x5b9cca4f, 0x682e6ff3,
   0x748f82ee, 0x78a5636f, 0x84c87814, 0x8cc70208, 0x90befffa, 0xa4506ceb, 0xbef9a3f7, 0xc67178f2]

/-- Padding of SHA-256: a `0x80` byte, zero bytes up to 56 modulo 64, then the
length of the message in bits as a big-endian `uint64`. -/
def sha256Pad (msg : Bytes) : Bytes :=
  msg ++ [byteOf 0x80] ++ List.replicate ((119 - msg.length % 64) % 64) (byteOf 0)
    ++ be64Bytes ((8 * msg.length) % 18446744073709551616)

/-- Message schedule of one block: the 16 words of the block followed by the
48 words derived from them. -/
def sha256Schedule (m : List Nat) : List Nat :=
  (List.range 48).foldl
    (fun w i =>
      let t := i + 16
      let v1 := w.getD (t - 2) 0
      let v2 := w.getD (t - 15) 0
      let s1 := (rotr32 v1 17) ^^^ (rotr32 v1 19) ^^^ (v1 >>> 10)
      let s0 := (rotr32 v2 7) ^^^ (rotr32 v2 18) ^^^ (v2 >>> 3)
      w ++ [add32 (add32 (add32 s1 (w.getD (t - 7) 0)) s0) (w.getD (t - 16) 0)])
    m

/-- One round of the SHA-256 compression function, with round constant `kw.1`
and schedule word `kw.2`. -/
def sha256Round (s : Sha256State) (kw : Nat × Nat) : Sha256State :=
  let bs1 := (rotr32 s.e 6) ^^^ (rotr32 s.e 11) ^^^ (rotr32 s.e 25)
  let ch := (s.e &&& s.f) ^^^ ((not32 s.e) &&& s.g)
  let t1 := add32 (add32 (add32 (add32 s.h bs1) ch) kw.1) kw.2
  let bs0 := (rotr32 s.a 2) ^^^ (rotr32 s.a 13) ^^^ (rotr32 s.a 22)
  let maj := (s.a &&& s.b) ^^^ (s.a &&& s.c) ^^^ (s.b &&& s.c)
  let t2 := add32 bs0 maj
  ⟨add32 t1 t2, s.a, s.b, s.c, add32 s.d t1, s.e, s.f, s.g⟩

/-- The SHA-256 compression of one 16-word block into the chaining value. -/
def sha256Block (h : Sha256State) (m : List Nat) : Sha256State :=
  let r := (sha256K.zip (sha256Schedule m)).foldl sha256Round h
  ⟨add32 h.a r.a, add32 h.b r.b, add32 h.c r.c, add32 h.d r.d,
   add32 h.e r.e, add32 h.f r.f, add32 h.g r.g, add32 h.h r.h⟩

/-- Compression of `n` consecutive 16-word blocks. -/
def sha256Loop (h : Sha256State) (ws : List Nat) : Nat → Sha256State
  | 0 => h
  | n + 1 => sha256Loop (sha256Block h (ws.take 16)) (ws.drop 16) n

/-- The function `sha256.Sum256`: the 32-byte SHA-256 digest of `data`. -/
def Sum256 (data : Bytes) : Bytes :=
  let p := sha256Pad data
  let s := sha256Loop sha256Init (beWords p) (p.length / 64)
  be32Bytes s.a ++ be32Bytes s.b ++ be32Bytes s.c ++ be32Bytes s.d ++
    be32Bytes s.e ++ be32Bytes s.f ++ be32Bytes s.g ++ be32Bytes s.h

/-! ## `crypto/md5` : `md5.Sum` (RFC 1321) -/

/-- The four working variables of MD5. -/
structure Md5State where
  a : Nat
  b : Nat
  c : Nat
  d : Nat
deriving DecidableEq, Repr

/-- Initial chaining value of MD5. -/
def md5Init : Md5State := ⟨0x67452301, 0xefcdab89, 0x98badcfe, 0x10325476⟩

/-- Per-step additive constants of MD5. -/
def md5K : List Nat :=
  [0xd76aa478, 0xe8c7b756, 0x242070db, 0xc1bdceee, 0xf57c0faf, 0x4787c62a, 0xa8304613, 0xfd469501,
   0x698098d8, 0x8b44f7af, 0xffff5bb1, 0x895cd7be, 0x6b901122, 0xfd987193, 0xa679438e, 0x49b40821,
   0xf61e2562, 0xc040b340, 0x265e5a51, 0xe9b6c7aa, 0xd62f105d, 0x02441453, 0xd8a1e681, 0xe7d3fbc8,
   0x21e1cde6, 0xc33707d6, 0xf4d50d87, 0x455a14ed, 0xa9e3e905, 0xfcefa3f8, 0x676f02d9, 0x8d2a4c8a,
   0xfffa3942, 0x8771f681, 0x6d9d6122, 0xfde5380c, 0xa4beea44, 0x4bdecfa9, 0xf6bb4b60, 0xbebfbc70,
   0x289b7ec6, 0xeaa127fa, 0xd4ef3085, 0x04881d05, 0xd9d4d039, 0xe6db99e5, 0x1fa27cf8, 0xc4ac5665,
   0xf4292244, 0x432aff97, 0xab9423a7, 0xfc93a039, 0x655b59c3, 0x8f0ccc92, 0xffeff47d, 0x85845dd1,
   0x6fa87e4f, 0xfe2ce6e0, 0xa3014314, 0x4e0811a1, 0xf7537e82, 0xbd3af235, 0x2ad7d2bb, 0xeb86d391]

/-- Per-step rotation amounts of MD5. -/
def md5S : List Nat :=
  [7, 12, 17, 22, 7, 12, 17, 22, 7, 12, 17, 22, 7, 12, 17, 22,
   5, 9, 14, 20, 5, 9, 14, 20, 5, 9, 14, 20, 5, 9, 14, 20,
   4, 11, 16, 23, 4, 11, 16, 23, 4, 11, 16, 23, 4, 11, 16, 23,
   6, 10, 15, 21, 6, 10, 15, 21, 6, 10, 15, 21, 6, 10, 15, 21]

/-- Padding of MD5: a `0x80` byte, zero bytes up to 56 modulo 64, then the
length of the message in bits as a little-endian `uint64`. -/
def md5Pad (msg : Bytes) : Bytes :=
  msg ++ [byteOf 0x80] ++ List.replicate ((119 - msg.length % 64) % 64) (byteOf 0)
    ++ le64Bytes ((8 * msg.length) % 18446744073709551616)

/-- Step `i` (from 0 to 63) of the MD5 compression of the 16-word block `m`. -/
def md5Step (m : List Nat) (s : Md5State) (i : Nat) : Md5State :=
  let fg : Nat × Nat :=
    if i < 16 then ((s.b &&& s.c) ||| ((not32 s.b) &&& s.d), i)
    else if i < 32 then ((s.d &&& s.b) ||| ((not32 s.d) &&& s.c), (5 * i + 1) % 16)
    else if i < 48 then (s.b ^^^ s.c ^^^ s.d, (3 * i + 5) % 16)
    else (s.c ^^^ (s.b ||| (not32 s.d)), (7 * i) % 16)
  let x := add32 (add32 (add32 fg.1 s.a) (md5K.getD i 0)) (m.getD fg.2 0)
  ⟨s.d, add32 s.b (rotl32 x (md5S.getD i 0)), s.b, s.c⟩

/-- The MD5 compression of one 16-word block into the chaining value. -/
def md5Block (h : Md5State) (m : List Nat) : Md5State :=
  let r := (List.range 64).foldl (md5Step m) h
  ⟨add32 h.a r.a, add32 h.b r.b, add32 h.c r.c, add32 h.d r.d⟩

/-- Compression of `n` consecutive 16-word blocks. -/
def md5Loop (h : Md5State) (ws : List Nat) : Nat → Md5State
  | 0 => h
  | n + 1 => md5Loop (md5Block h (ws.take 16)) (ws.drop 16) n

/-- The function `md5.Sum`: the 16-byte MD5 digest of `data`. -/
def md5Sum (data : Bytes) : Bytes :=
  let p := md5Pad data
  let s := md5Loop md5Init (leWords p) (p.length / 64)
  le32Bytes s.a ++ le32Bytes s.b ++ le32Bytes s.c ++ le32Bytes s.d

/-! ## `encoding/base64` : `base64.StdEncoding` (RFC 4648, padded) -/

/-- The standard base64 alphabet, `encodeStd` of `encoding/base64`. -/
def encodeStd : List Char :=
  "ABCDEFGHIJKLMNOPQRSTUVWXYZabcdefghijklmnopqrstuvwxyz0123456789+/".toList

/-- The lookup `enc.encode[i]`, for `i < 64`. -/
def encChar (i : Nat) : Char := encodeStd.getD i 'A'

/-- The value of a character of the alphabet, `none` for any other character. -/
def decChar (c : Char) : Option Nat :=
  let i := encodeStd.indexOf c
  if i < 64 then some i else none

/-- The characters written by `StdEncoding.Encode`: each group of three bytes
gives four characters, a final group of one or two bytes is padded with `=`. -/
def encodeChars : Bytes → List Char
  | [] => []
  | [a] =>
      let val := a.val <<< 16
      [encChar ((val >>> 18) &&& 0x3F), encChar ((val >>> 12) &&& 0x3F), '=', '=']
  | [a, b] =>
      let val := (a.val <<< 16) ||| (b.val <<< 8)
      [encChar ((val >>> 18) &&& 0x3F), encChar ((val >>> 12) &&& 0x3F),
       encChar ((val >>> 6) &&& 0x3F), '=']
  | a :: b :: c :: rest =>
      let val := (a.val <<< 16) ||| (b.val <<< 8) ||| c.val
      encChar ((val >>> 18) &&& 0x3F) :: encChar ((val >>> 12) &&& 0x3F) ::
        encChar ((val >>> 6) &&& 0x3F) :: encChar (val &&& 0x3F) :: encodeChars rest

/-- The function `base64.StdEncoding.EncodeToString`. -/
def EncodeToString (src : Bytes) : String := String.mk (encodeChars src)

/-- Decoding of padded standard base64 (RFC 4648, section 4): groups of four
characters of the alphabet give three bytes each; the last group may end in
one or two `=`, and then gives two bytes or one. Anything else is rejected. -/
def decodeChars : List Char → Option Bytes
  | [] => some []
  | c0 :: c1 :: c2 :: c3 :: rest =>
      if rest = [] ∧ c3 = '=' then
        if c2 = '=' then
          match decChar c0, decChar c1 with
          | some s0, some s1 => some [byteOf ((s0 <<< 2) ||| (s1 >>> 4))]
          | _, _ => none
        else
          match decChar c0, decChar c1, decChar c2 with
          | some s0, some s1, some s2 =>
              some [byteOf ((s0 <<< 2) ||| (s1 >>> 4)), byteOf ((s1 <<< 4) ||| (s2 >>> 2))]
          | _, _, _ => none
      else
        match decChar c0, decChar c1, decChar c2, decChar c3, decodeChars rest with
        | some s0, some s1, some s2, some s3, some tl =>
            some (byteOf ((s0 <<< 2) ||| (s1 >>> 4)) :: byteOf ((s1 <<< 4) ||| (s2 >>> 2)) ::
              byteOf ((s2 <<< 6) ||| s3) :: tl)
        | _, _, _, _, _ => none
  | _ => none

/-- Decoding of a string of padded standard base64. -/
def DecodeString (s : String) : Option Bytes := decodeChars s.data

/-! ## The program -/

/-- A Go `[4]byte`. -/
structure Salt where
  b0 : Byte
  b1 : Byte
  b2 : Byte
  b3 : Byte
deriving DecidableEq, Repr

/-- The slice `salt[:]`. -/
def Salt.toBytes (s : Salt) : Bytes := [s.b0, s.b1, s.b2, s.b3]

/-- The array literal `[4]byte{0,0,0,0}`, also the zero value `[4]byte{}`. -/
def Salt.zero : Salt := ⟨0, 0, 0, 0⟩

/-- The outcome of one call `rand.Read(buf)` on a 4-byte buffer: the contents
of the buffer after the call, and the error returned (`none` for `nil`). -/
structure RandOutcome where
  drawn : Salt
  err : Option String
deriving DecidableEq, Repr

/-- The call `rand.Read(salt[:])`: the buffer is overwritten with the bytes
drawn and the error of the random source is returned. -/
def randRead (r : RandOutcome) (_buf : Salt) : Salt × Option String := (r.drawn, r.err)

/-- The function `generateSalt` of `main.go`:
    salt := [4]byte{}
    _, err := rand.Read(salt[:])
    salt = [4]byte{0,0,0,0}
    return salt, err -/
def generateSalt (r : RandOutcome) : Salt × Option String :=
  let salt := Salt.zero
  let (_salt, err) := randRead r salt
  let salt := Salt.zero
  (salt, err)

/-- The function `generateHashSha256` of `main.go`:
`sha256.Sum256(append(salt[:], []byte(password)...))`. -/
def generateHashSha256 (salt : Salt) (password : Bytes) : Bytes :=
  Sum256 (salt.toBytes ++ password)

/-- The function `generateHashMd5` of `main.go`:
`md5.Sum(append(salt[:], []byte(password)...))`. -/
def generateHashMd5 (salt : Salt) (password : Bytes) : Bytes :=
  md5Sum (salt.toBytes ++ password)

/-- The command-line flags after `flag.Parse()`. The password is a Go string,
that is a sequence of bytes. -/
structure Flags where
  algorithm : String
  password : Bytes
  help : Bool
deriving DecidableEq, Repr

/-- The default values of the flags: `-algorithm sha256`, `-password ""`,
`-help false`. -/
def Flags.default : Flags := ⟨"sha256", [], false⟩

/-- One write to standard error. -/
inductive StderrWrite where
  /-- The call `fmt.Fprintf(os.Stderr, ...)`, with the text written. -/
  | fprintf (text : String)
  /-- The call `flag.PrintDefaults()`. -/
  | printDefaults
  /-- The line logged by `log.Fatal(err)`. -/
  | logFatal (err : String)
deriving DecidableEq, Repr

/-- The function installed as `flag.Usage`, for the program name `os.Args[0]`. -/
def Usage (prog : String) : List StderrWrite :=
  [StderrWrite.fprintf "Generate RabbitMQ password hash\n",
   StderrWrite.fprintf ("Usage of " ++ prog ++ ":\n"),
   StderrWrite.printDefaults]

/-- What a run of the program leaves behind: the text on standard output, the
writes to standard error in order, the exit code of the process and the number
of calls to the random source. -/
structure Run where
  stdout : String
  stderr : List StderrWrite
  exitCode : Nat
  randReads : Nat
deriving DecidableEq, Repr

/-- The function `main` of `main.go` from `flag.Parse()` on, for the program
name `prog`, the parsed flags `fl` and the outcome `rnd` of the call to the
random source, should it be made. `os.Exit` and `log.Fatal` (which exits with
code 1) end the run where they are called. -/
def main (prog : String) (fl : Flags) (rnd : RandOutcome) : Run :=
  if fl.help = true then
    { stdout := "", stderr := Usage prog, exitCode := 0, randReads := 0 }
  else if fl.password = [] then
    { stdout := "", stderr := [], exitCode := 10, randReads := 0 }
  else
    match generateSalt rnd with
    | (_, some err) =>
        { stdout := "", stderr := [StderrWrite.logFatal err], exitCode := 1, randReads := 1 }
    | (salt, none) =>
        let hashed : Option Bytes :=
          if fl.algorithm = "sha256" then some (generateHashSha256 salt fl.password)
          else if fl.algorithm = "md5" then some (generateHashMd5 salt fl.password)
          else none
        match hashed with
        | none => { stdout := "", stderr := Usage prog, exitCode := 20, randReads := 1 }
        | some hash =>
            let hash := salt.toBytes ++ hash
            { stdout := EncodeToString hash ++ "\n", stderr := [], exitCode := 0, randReads := 1 }

/-- The usage text was written to standard error during the run. -/
def usagePrinted (prog : String) (r : Run) : Prop := Usage prog <:+: r.stderr

/-! ## Example inputs -/

/-- The flags `-password guest` (algorithm left at its default, `sha256`). -/
def guestSha256 : Flags := ⟨"sha256", asciiBytes "guest", false⟩

/-- The flags `-algorithm md5 -password guest`. -/
def guestMd5 : Flags := ⟨"md5", asciiBytes "guest", false⟩

/-- The flags `-algorithm sha1 -password guest`. -/
def guestSha1 : Flags := ⟨"sha1", asciiBytes "guest", false⟩

/-- The flags `-algorithm sha1`, without a password. -/
def noPassword : Flags := ⟨"sha1", [], false⟩

/-- The flags `-help -algorithm sha1`, without a password. -/
def helpOnly : Flags := ⟨"sha1", [], true⟩

/-- A successful draw of the bytes `de ad be ef`. -/
def drawA : RandOutcome := ⟨⟨0xde, 0xad, 0xbe, 0xef⟩, none⟩

/-- A successful draw of the bytes `01 02 03 04`. -/
def drawB : RandOutcome := ⟨⟨1, 2, 3, 4⟩, none⟩

/-- A failed read of the random source that left `7f 00 00 00` in the buffer. -/
def drawFailed : RandOutcome := ⟨⟨0x7f, 0, 0, 0⟩, some "unexpected EOF"⟩

/-! ## The library functions on published test vectors -/

/-- SHA-256 of `abc` (FIPS 180-4, one block). -/
theorem Sum256_abc :
    Sum256 (asciiBytes "abc") =
    [0xba, 0x78, 0x16, 0xbf, 0x8f, 0x01, 0xcf, 0xea, 0x41, 0x41, 0x40, 0xde,
     0x5d, 0xae, 0x22, 0x23, 0xb0, 0x03, 0x61, 0xa3, 0x96, 0x17, 0x7a, 0x9c,
     0xb4, 0x10, 0xff, 0x61, 0xf2, 0x00, 0x15, 0xad] := by
  decide!

/-- SHA-256 of the 56-byte message of FIPS 180-4 (two blocks). -/
theorem Sum256_two_blocks :
    Sum256 (asciiBytes "abcdbcdecdefdefgefghfghighijhijkijkljklmklmnlmnomnopnopq") =
    [0x24, 0x8d, 0x6a, 0x61, 0xd2, 0x06, 0x38, 0xb8, 0xe5, 0xc0, 0x26, 0x93,
     0x0c, 0x3e, 0x60, 0x39, 0xa3, 0x3c, 0xe4, 0x59, 0x64, 0xff, 0x21, 0x67,
     0xf6, 0xec, 0xed, 0xd4, 0x19, 0xdb, 0x06, 0xc1] := by
  decide!

/-- MD5 of `abc` (RFC 1321, one block). -/
theorem md5Sum_abc :
    md5Sum (asciiBytes "abc") =
    [0x90, 0x01, 0x50, 0x98, 0x3c, 0xd2, 0x4f, 0xb0, 0xd6, 0x96, 0x3f, 0x7d,
     0x28, 0xe1, 0x7f, 0x72] := by
  decide!

/-- MD5 of the 80-digit message of RFC 1321 (two blocks). -/
theorem md5Sum_two_blocks :
    md5Sum (asciiBytes
      "12345678901234567890123456789012345678901234567890123456789012345678901234567890") =
    [0x57, 0xed, 0xf4, 0xa2, 0x2b, 0xe3, 0xc9, 0x55, 0xac, 0x49, 0xda, 0x2e,
     0x21, 0x07, 0xb6, 0x7a] := by
  decide!

/-- Base64 of the test vectors of RFC 4648, section 10. -/
theorem EncodeToString_rfc4648 :
    EncodeToString (asciiBytes "") = "" ∧ EncodeToString (asciiBytes "f") = "Zg==" ∧
    EncodeToString (asciiBytes "fo") = "Zm8=" ∧ EncodeToString (asciiBytes "foo") = "Zm9v" ∧
    EncodeToString (asciiBytes "foob") = "Zm9vYg==" ∧
    EncodeToString (asciiBytes "fooba") = "Zm9vYmE=" ∧
    EncodeToString (asciiBytes "foobar") = "Zm9vYmFy" := by
  decide!

/-! ## Lemmas on bit operations -/

theorem shl_or_eq_add (x y k : Nat) (h : y < 2 ^ k) : (x <<< k) ||| y = x * 2 ^ k + y := by
  rw [Nat.shiftLeft_eq, Nat.mul_comm x, ← Nat.mul_add_lt_is_or h]

theorem and_63_eq_mod (x : Nat) : x &&& 0x3F = x % 64 :=
  Nat.and_pow_two_sub_one_eq_mod x 6

theorem pack2_eq (a b : Nat) (hb : b < 256) :
    (a <<< 16) ||| (b <<< 8) = a * 65536 + b * 256 := by
  have h : b <<< 8 < 2 ^ 16 := by rw [Nat.shiftLeft_eq]; omega
  rw [shl_or_eq_add _ _ _ h, Nat.shiftLeft_eq]
  norm_num

theorem pack3_eq (a b c : Nat) (hb : b < 256) (hc : c < 256) :
    (a <<< 16) ||| (b <<< 8) ||| c = a * 65536 + b * 256 + c := by
  have h2 : a * 65536 + b * 256 = 2 ^ 8 * (a * 256 + b) := by omega
  have h3 : c < 2 ^ 8 := by omega
  rw [pack2_eq a b hb, h2, ← Nat.mul_add_lt_is_or h3]

theorem unpack0 (s0 s1 : Nat) (h : s1 < 64) : (s0 <<< 2) ||| (s1 >>> 4) = s0 * 4 + s1 / 16 := by
  have h1 : s1 >>> 4 < 2 ^ 2 := by rw [Nat.shiftRight_eq_div_pow]; omega
  rw [shl_or_eq_add _ _ _ h1, Nat.shiftRight_eq_div_pow]
  norm_num

theorem unpack1 (s1 s2 : Nat) (h : s2 < 64) : (s1 <<< 4) ||| (s2 >>> 2) = s1 * 16 + s2 / 4 := by
  have h1 : s2 >>> 2 < 2 ^ 4 := by rw [Nat.shiftRight_eq_div_pow]; omega
  rw [shl_or_eq_add _ _ _ h1, Nat.shiftRight_eq_div_pow]
  norm_num

theorem unpack2 (s2 s3 : Nat) (h : s3 < 64) : (s2 <<< 6) ||| s3 = s2 * 64 + s3 := by
  have h1 : s3 < 2 ^ 6 := by omega
  rw [shl_or_eq_add _ _ _ h1]
  norm_num

/-! ## Lemmas on base64 -/

theorem alphabet_spec : ∀ i, i < 64 → decChar (encChar i) = some i ∧ encChar i ≠ '=' := by
  decide

theorem decChar_encChar (x : Nat) : decChar (encChar (x &&& 0x3F)) = some (x &&& 0x3F) :=
  (alphabet_spec _ (by rw [and_63_eq_mod]; omega)).1

theorem encChar_ne_pad (x : Nat) : encChar (x &&& 0x3F) ≠ '=' :=
  (alphabet_spec _ (by rw [and_63_eq_mod]; omega)).2

theorem sextets_one (a : Byte) :
    byteOf (((((a.val <<< 16) >>> 18) &&& 0x3F) <<< 2) |||
      ((((a.val <<< 16) >>> 12) &&& 0x3F) >>> 4)) = a := by
  have ha := a.isLt
  rw [unpack0 _ _ (by rw [and_63_eq_mod]; omega)]
  simp only [and_63_eq_mod, Nat.shiftRight_eq_div_pow, Nat.shiftLeft_eq]
  apply Fin.ext
  simp only [byteOf]
  omega

theorem sextets_two (a b : Byte) :
    byteOf ((((((a.val <<< 16) ||| (b.val <<< 8)) >>> 18) &&& 0x3F) <<< 2) |||
      (((((a.val <<< 16) ||| (b.val <<< 8)) >>> 12) &&& 0x3F) >>> 4)) = a ∧
    byteOf ((((((a.val <<< 16) ||| (b.val <<< 8)) >>> 12) &&& 0x3F) <<< 4) |||
      (((((a.val <<< 16) ||| (b.val <<< 8)) >>> 6) &&& 0x3F) >>> 2)) = b := by
  have ha := a.isLt
  have hb := b.isLt
  rw [unpack0 _ _ (by rw [and_63_eq_mod]; omega), unpack1 _ _ (by rw [and_63_eq_mod]; omega),
    pack2_eq _ _ hb]
  simp only [and_63_eq_mod, Nat.shiftRight_eq_div_pow]
  constructor <;> (apply Fin.ext; simp only [byteOf]; omega)

theorem sextets_three (a b c : Byte) :
    byteOf ((((((a.val <<< 16) ||| (b.val <<< 8) ||| c.val) >>> 18) &&& 0x3F) <<< 2) |||
      (((((a.val <<< 16) ||| (b.val <<< 8) ||| c.val) >>> 12) &&& 0x3F) >>> 4)) = a ∧
    byteOf ((((((a.val <<< 16) ||| (b.val <<< 8) ||| c.val) >>> 12) &&& 0x3F) <<< 4) |||
      (((((a.val <<< 16) ||| (b.val <<< 8) ||| c.val) >>> 6) &&& 0x3F) >>> 2)) = b ∧
    byteOf (((((((a.val <<< 16) ||| (b.val <<< 8) ||| c.val) >>> 6) &&& 0x3F)) <<< 6) |||
      (((a.val <<< 16) ||| (b.val <<< 8) ||| c.val) &&& 0x3F)) = c := by
  have ha := a.isLt
  have hb := b.isLt
  have hc := c.isLt
  rw [unpack0 _ _ (by rw [and_63_eq_mod]; omega), unpack1 _ _ (by rw [and_63_eq_mod]; omega),
    unpack2 _ _ (by rw [and_63_eq_mod]; omega), pack3_eq _ _ _ hb hc]
  simp only [and_63_eq_mod, Nat.shiftRight_eq_div_pow]
  refine ⟨?_, ?_, ?_⟩ <;> (apply Fin.ext; simp only [byteOf]; omega)

theorem decodeChars_encodeChars (d : Bytes) : decodeChars (encodeChars d) = some d := by
  induction d using encodeChars.induct with
  | case1 => rfl
  | case2 a =>
      simp only [encodeChars, decodeChars, decChar_encChar, and_self, if_true, sextets_one]
  | case3 a b =>
      simp only [encodeChars, decodeChars, decChar_encChar, and_self, if_true,
        encChar_ne_pad, if_false, (sextets_two a b).1, (sextets_two a b).2]
  | case4 a b c rest ih =>
      simp only [encodeChars, decodeChars, decChar_encChar, encChar_ne_pad, and_false, if_false,
        ih, (sextets_three a b c).1, (sextets_three a b c).2.1, (sextets_three a b c).2.2]

theorem encodeChars_length (d : Bytes) : (encodeChars d).length = 4 * ((d.length + 2) / 3) := by
  induction d using encodeChars.induct with
  | case1 => rfl
  | case2 a => simp [encodeChars]
  | case3 a b => simp [encodeChars]
  | case4 a b c rest ih =>
      simp only [encodeChars, List.length_cons, ih]
      omega

theorem encodeChars_count_pad (d : Bytes) :
    (encodeChars d).count '=' = (3 - d.length % 3) % 3 := by
  induction d using encodeChars.induct with
  | case1 => rfl
  | case2 a =>
      simp [encodeChars, List.count_cons, encChar_ne_pad]
  | case3 a b =>
      simp [encodeChars, List.count_cons, encChar_ne_pad]
  | case4 a b c rest ih =>
      simp only [encodeChars, List.length_cons]
      rw [List.count_cons_of_ne (encChar_ne_pad _).symm,
        List.count_cons_of_ne (encChar_ne_pad _).symm,
        List.count_cons_of_ne (encChar_ne_pad _).symm,
        List.count_cons_of_ne (encChar_ne_pad _).symm, ih]
      omega

theorem encodeChars_getLast_pad (d : Bytes) (h : d.length % 3 ≠ 0) :
    (encodeChars d).getLast? = some '=' := by
  induction d using encodeChars.induct with
  | case1 => simp at h
  | case2 a => simp [encodeChars]
  | case3 a b => simp [encodeChars]
  | case4 a b c rest ih =>
      have hr : rest.length % 3 ≠ 0 := by
        simp only [List.length_cons] at h
        omega
      have ih := ih hr
      have hne : encodeChars rest ≠ [] := by
        intro he
        rw [he] at ih
        simp at ih
      simp only [encodeChars]
      rw [List.getLast?_cons_cons, List.getLast?_cons_cons, List.getLast?_cons_cons]
      obtain ⟨x, xs, hx⟩ := List.exists_cons_of_ne_nil hne
      rw [hx, List.getLast?_cons_cons, ← hx, ih]

theorem Sum256_length (data : Bytes) : (Sum256 data).length = 32 := by
  simp [Sum256, be32Bytes]

theorem md5Sum_length (data : Bytes) : (md5Sum data).length = 16 := by
  simp [md5Sum, le32Bytes]

theorem alphabet_no_newline : ∀ i, i < 64 → encChar i ≠ '\n' := by
  decide

theorem newline_not_mem_encodeChars (d : Bytes) : '\n' ∉ encodeChars d := by
  have hne : ∀ x : Nat, ¬ ('\n' = encChar (x &&& 0x3F)) := fun x h =>
    alphabet_no_newline _ (by rw [and_63_eq_mod]; omega) h.symm
  have hpad : ¬ ('\n' = '=') := by decide
  induction d using encodeChars.induct with
  | case1 => simp [encodeChars]
  | case2 a => simp [encodeChars, hne, hpad]
  | case3 a b => simp [encodeChars, hne, hpad]
  | case4 a b c rest ih => simp [encodeChars, hne, ih]

/-! ## Lemmas on the program -/

theorem generateSalt_eq (r : RandOutcome) : generateSalt r = (Salt.zero, r.err) := rfl

theorem main_help (prog : String) (fl : Flags) (rnd : RandOutcome) (hh : fl.help = true) :
    main prog fl rnd = { stdout := "", stderr := Usage prog, exitCode := 0, randReads := 0 } := by
  simp [main, hh]

theorem main_empty_password (prog : String) (fl : Flags) (rnd : RandOutcome)
    (hh : fl.help = false) (hp : fl.password = []) :
    main prog fl rnd = { stdout := "", stderr := [], exitCode := 10, randReads := 0 } := by
  simp [main, hh, hp]

theorem main_rand_failure (prog : String) (fl : Flags) (rnd : RandOutcome) (e : String)
    (hh : fl.help = false) (hp : fl.password ≠ []) (hr : rnd.err = some e) :
    main prog fl rnd =
      { stdout := "", stderr := [StderrWrite.logFatal e], exitCode := 1, randReads := 1 } := by
  simp [main, hh, hp, generateSalt_eq, hr]

theorem main_sha256 (prog : String) (fl : Flags) (rnd : RandOutcome)
    (hh : fl.help = false) (hp : fl.password ≠ []) (hr : rnd.err = none)
    (ha : fl.algorithm = "sha256") :
    main prog fl rnd =
      { stdout := EncodeToString (Salt.zero.toBytes ++ Sum256 (Salt.zero.toBytes ++ fl.password))
          ++ "\n",
        stderr := [], exitCode := 0, randReads := 1 } := by
  simp [main, hh, hp, generateSalt_eq, hr, ha, generateHashSha256]

theorem main_md5 (prog : String) (fl : Flags) (rnd : RandOutcome)
    (hh : fl.help = false) (hp : fl.password ≠ []) (hr : rnd.err = none)
    (ha : fl.algorithm = "md5") :
    main prog fl rnd =
      { stdout := EncodeToString (Salt.zero.toBytes ++ md5Sum (Salt.zero.toBytes ++ fl.password))
          ++ "\n",
        stderr := [], exitCode := 0, randReads := 1 } := by
  have h : ¬ ("md5" = "sha256") := by decide
  simp [main, hh, hp, generateSalt_eq, hr, ha, h, generateHashMd5]

theorem main_unrecognised (prog : String) (fl : Flags) (rnd : RandOutcome)
    (hh : fl.help = false) (hp : fl.password ≠ []) (hr : rnd.err = none)
    (h1 : fl.algorithm ≠ "sha256") (h2 : fl.algorithm ≠ "md5") :
    main prog fl rnd =
      { stdout := "", stderr := Usage prog, exitCode := 20, randReads := 1 } := by
  simp [main, hh, hp, generateSalt_eq, hr, h1, h2]

theorem DecodeString_EncodeToString (d : Bytes) : DecodeString (EncodeToString d) = some d :=
  decodeChars_encodeChars d

theorem not_usage_infix_nil (prog : String) : ¬ (Usage prog <:+: ([] : List StderrWrite)) := by
  simp [Usage]

theorem not_usage_infix_singleton (prog : String) (w : StderrWrite) :
    ¬ (Usage prog <:+: [w]) := by
  intro h
  have := h.length_le
  simp [Usage] at this

/-! ## The program: theorems -/

/-- C1: on a successful run (help not requested, non-empty password, algorithm
`sha256` or `md5`, random source succeeding) the printed line decodes under
padded standard base64 to bytes `d` whose first 4 bytes are the salt returned
by `generateSalt` and whose remaining bytes are the digest, under the selected
algorithm, of `d[0:4] ++ password`. -/
theorem roundtrip_printed_output (prog : String) (fl : Flags) (rnd : RandOutcome)
    (hh : fl.help = false) (hp : fl.password ≠ []) (hr : rnd.err = none)
    (ha : fl.algorithm = "sha256" ∨ fl.algorithm = "md5") :
    ∃ line d, (main prog fl rnd).stdout = line ++ "\n" ∧ DecodeString line = some d ∧
      d.take 4 = (generateSalt rnd).1.toBytes ∧
      (fl.algorithm = "sha256" → Sum256 (d.take 4 ++ fl.password) = d.drop 4) ∧
      (fl.algorithm = "md5" → md5Sum (d.take 4 ++ fl.password) = d.drop 4) := by
  rcases ha with ha | ha
  · refine ⟨_, _, congrArg Run.stdout (main_sha256 prog fl rnd hh hp hr ha),
      DecodeString_EncodeToString _, rfl, fun _ => rfl, fun h => ?_⟩
    rw [ha] at h
    exact absurd h (by decide)
  · refine ⟨_, _, congrArg Run.stdout (main_md5 prog fl rnd hh hp hr ha),
      DecodeString_EncodeToString _, rfl, fun h => ?_, fun _ => rfl⟩
    rw [ha] at h
    exact absurd h (by decide)

/-- Witness of C1: `-password guest` with the default algorithm and a successful draw. -/
theorem roundtrip_printed_output_witness :
    ∃ line d, (main "rabbitmq-hash" guestSha256 drawA).stdout = line ++ "\n" ∧
      DecodeString line = some d ∧
      d.take 4 = (generateSalt drawA).1.toBytes ∧
      (guestSha256.algorithm = "sha256" →
        Sum256 (d.take 4 ++ guestSha256.password) = d.drop 4) ∧
      (guestSha256.algorithm = "md5" →
        md5Sum (d.take 4 ++ guestSha256.password) = d.drop 4) :=
  roundtrip_printed_output "rabbitmq-hash" guestSha256 drawA rfl (by decide) rfl (Or.inl rfl)

/-- C2, evaluated on the code: after a successful draw of `01 02 03 04` the salt
returned by `generateSalt` is not the bytes drawn but `00 00 00 00`, and two
runs with the same password and algorithm and different successful draws print
the same line. -/
theorem generateSalt_discards_draw :
    (generateSalt drawB).2 = none ∧
    (generateSalt drawB).1 ≠ drawB.drawn ∧
    (generateSalt drawB).1 = ⟨0, 0, 0, 0⟩ ∧
    drawA.drawn ≠ drawB.drawn ∧
    (main "rabbitmq-hash" guestSha256 drawA).stdout =
      (main "rabbitmq-hash" guestSha256 drawB).stdout := by
  refine ⟨rfl, by decide, rfl, by decide, ?_⟩
  rw [main_sha256 _ _ drawA rfl (by decide) rfl rfl, main_sha256 _ _ drawB rfl (by decide) rfl rfl]

/-- C3: whatever the random source does (any bytes, success or failure), the
salt returned by `generateSalt` is `00 00 00 00`; hence, for a non-empty
password and algorithm `sha256` or `md5`, two successful runs print the same
output whatever bytes were drawn. -/
theorem constant_salt :
    (∀ r : RandOutcome, (generateSalt r).1 = ⟨0, 0, 0, 0⟩) ∧
    (∀ (prog : String) (fl : Flags) (r1 r2 : RandOutcome),
      fl.help = false → fl.password ≠ [] →
      (fl.algorithm = "sha256" ∨ fl.algorithm = "md5") →
      r1.err = none → r2.err = none →
      (main prog fl r1).exitCode = 0 ∧ (main prog fl r2).exitCode = 0 ∧
      (main prog fl r1).stdout = (main prog fl r2).stdout) := by
  refine ⟨fun _ => rfl, ?_⟩
  intro prog fl r1 r2 hh hp ha h1 h2
  rcases ha with ha | ha
  · rw [main_sha256 prog fl r1 hh hp h1 ha, main_sha256 prog fl r2 hh hp h2 ha]
    exact ⟨rfl, rfl, rfl⟩
  · rw [main_md5 prog fl r1 hh hp h1 ha, main_md5 prog fl r2 hh hp h2 ha]
    exact ⟨rfl, rfl, rfl⟩

/-- Witness of C3: `-algorithm md5 -password guest` with the draws `de ad be ef`
and `01 02 03 04`. -/
theorem constant_salt_witness :
    (generateSalt drawFailed).1 = ⟨0, 0, 0, 0⟩ ∧
    (main "rabbitmq-hash" guestMd5 drawA).exitCode = 0 ∧
    (main "rabbitmq-hash" guestMd5 drawB).exitCode = 0 ∧
    (main "rabbitmq-hash" guestMd5 drawA).stdout =
      (main "rabbitmq-hash" guestMd5 drawB).stdout :=
  ⟨constant_salt.1 drawFailed,
    constant_salt.2 "rabbitmq-hash" guestMd5 drawA drawB rfl (by decide) (Or.inr rfl) rfl rfl⟩

/-- C4: on a successful run the exit code is 0 and standard output is exactly
one line followed by a newline; the line, which holds no newline itself, is
the padded standard base64 of `00 00 00 00 ++ digest (00 00 00 00 ++ password)`
for the digest of the selected algorithm. -/
theorem success_output (prog : String) (fl : Flags) (rnd : RandOutcome)
    (hh : fl.help = false) (hp : fl.password ≠ []) (hr : rnd.err = none)
    (ha : fl.algorithm = "sha256" ∨ fl.algorithm = "md5") :
    (main prog fl rnd).exitCode = 0 ∧
    ∃ line, (main prog fl rnd).stdout = line ++ "\n" ∧ '\n' ∉ line.data ∧
      (fl.algorithm = "sha256" →
        line = EncodeToString ([0, 0, 0, 0] ++ Sum256 ([0, 0, 0, 0] ++ fl.password))) ∧
      (fl.algorithm = "md5" →
        line = EncodeToString ([0, 0, 0, 0] ++ md5Sum ([0, 0, 0, 0] ++ fl.password))) := by
  rcases ha with ha | ha
  · rw [main_sha256 prog fl rnd hh hp hr ha]
    refine ⟨rfl, _, rfl, newline_not_mem_encodeChars _, fun _ => rfl, fun h => ?_⟩
    rw [ha] at h
    exact absurd h (by decide)
  · rw [main_md5 prog fl rnd hh hp hr ha]
    refine ⟨rfl, _, rfl, newline_not_mem_encodeChars _, fun h => ?_, fun _ => rfl⟩
    rw [ha] at h
    exact absurd h (by decide)

/-- Witness of C4: password `guest`, algorithm `sha256`; the line printed is
`AAAAAPEoQ8a3jY6DABRiJzkoKooQbXiBp2iGLke7d+FVKzJx`. -/
theorem success_output_witness :
    ((main "rabbitmq-hash" guestSha256 drawA).exitCode = 0 ∧
      ∃ line, (main "rabbitmq-hash" guestSha256 drawA).stdout = line ++ "\n" ∧
        '\n' ∉ line.data ∧
        (guestSha256.algorithm = "sha256" → line =
          EncodeToString ([0, 0, 0, 0] ++ Sum256 ([0, 0, 0, 0] ++ guestSha256.password))) ∧
        (guestSha256.algorithm = "md5" → line =
          EncodeToString ([0, 0, 0, 0] ++ md5Sum ([0, 0, 0, 0] ++ guestSha256.password)))) ∧
    (main "rabbitmq-hash" guestSha256 drawA).stdout =
      "AAAAAPEoQ8a3jY6DABRiJzkoKooQbXiBp2iGLke7d+FVKzJx\n" :=
  ⟨success_output "rabbitmq-hash" guestSha256 drawA rfl (by decide) rfl (Or.inl rfl),
    by decide!⟩

/-- C5: on a successful run the printed line decodes to exactly
`4 + digest size` bytes: 36 for `sha256` and 20 for `md5`, whatever the
password. -/
theorem decoded_length (prog : String) (fl : Flags) (rnd : RandOutcome)
    (hh : fl.help = false) (hp : fl.password ≠ []) (hr : rnd.err = none)
    (ha : fl.algorithm = "sha256" ∨ fl.algorithm = "md5") :
    ∃ line d, (main prog fl rnd).stdout = line ++ "\n" ∧ DecodeString line = some d ∧
      (fl.algorithm = "sha256" → d.length = 4 + 32) ∧
      (fl.algorithm = "md5" → d.length = 4 + 16) := by
  rcases ha with ha | ha
  · refine ⟨_, _, congrArg Run.stdout (main_sha256 prog fl rnd hh hp hr ha),
      DecodeString_EncodeToString _, fun _ => ?_, fun h => ?_⟩
    · simp [Salt.toBytes, Sum256_length]
    · rw [ha] at h
      exact absurd h (by decide)
  · refine ⟨_, _, congrArg Run.stdout (main_md5 prog fl rnd hh hp hr ha),
      DecodeString_EncodeToString _, fun h => ?_, fun _ => ?_⟩
    · rw [ha] at h
      exact absurd h (by decide)
    · simp [Salt.toBytes, md5Sum_length]

/-- Witness of C5: `-algorithm md5 -password guest`. -/
theorem decoded_length_witness :
    ∃ line d, (main "rabbitmq-hash" guestMd5 drawB).stdout = line ++ "\n" ∧
      DecodeString line = some d ∧
      (guestMd5.algorithm = "sha256" → d.length = 4 + 32) ∧
      (guestMd5.algorithm = "md5" → d.length = 4 + 16) :=
  decoded_length "rabbitmq-hash" guestMd5 drawB rfl (by decide) rfl (Or.inr rfl)

/-- C6: a successful run with algorithm `md5` prints a line of exactly 28
characters whose last character is `=` and which holds no other `=`. -/
theorem md5_encoded_shape (prog : String) (fl : Flags) (rnd : RandOutcome)
    (hh : fl.help = false) (hp : fl.password ≠ []) (hr : rnd.err = none)
    (ha : fl.algorithm = "md5") :
    ∃ line, (main prog fl rnd).stdout = line ++ "\n" ∧ line.length = 28 ∧
      line.data.getLast? = some '=' ∧ line.data.count '=' = 1 := by
  have hlen : (Salt.zero.toBytes ++ md5Sum (Salt.zero.toBytes ++ fl.password)).length = 20 := by
    simp [Salt.toBytes, md5Sum_length]
  refine ⟨_, congrArg Run.stdout (main_md5 prog fl rnd hh hp hr ha), ?_, ?_, ?_⟩
  · show (encodeChars _).length = 28
    rw [encodeChars_length, hlen]
  · show (encodeChars _).getLast? = some '='
    exact encodeChars_getLast_pad _ (by rw [hlen]; decide)
  · show (encodeChars _).count '=' = 1
    rw [encodeChars_count_pad, hlen]

/-- Witness of C6: password `guest`, salt `00 00 00 00`; the line printed is
`AAAAAM8qHlIgCoMtmqYAu+KVRI8=`. -/
theorem md5_encoded_shape_witness :
    (∃ line, (main "rabbitmq-hash" guestMd5 drawA).stdout = line ++ "\n" ∧ line.length = 28 ∧
      line.data.getLast? = some '=' ∧ line.data.count '=' = 1) ∧
    (main "rabbitmq-hash" guestMd5 drawA).stdout = "AAAAAM8qHlIgCoMtmqYAu+KVRI8=\n" :=
  ⟨md5_encoded_shape "rabbitmq-hash" guestMd5 drawA rfl (by decide) rfl rfl, by decide!⟩

/-- C7: with help not requested and an empty password, whatever the algorithm
flag and the random source, the program exits with code 10, writes nothing to
standard output and nothing (so no usage text) to standard error. -/
theorem empty_password_exit (prog : String) (fl : Flags) (rnd : RandOutcome)
    (hh : fl.help = false) (hp : fl.password = []) :
    (main prog fl rnd).exitCode = 10 ∧ (main prog fl rnd).stdout = "" ∧
      (main prog fl rnd).stderr = [] ∧ ¬ usagePrinted prog (main prog fl rnd) := by
  rw [main_empty_password prog fl rnd hh hp]
  exact ⟨rfl, rfl, rfl, not_usage_infix_nil prog⟩

/-- Witness of C7: `-algorithm sha1` without a password, the random source failing. -/
theorem empty_password_exit_witness :
    (main "rabbitmq-hash" noPassword drawFailed).exitCode = 10 ∧
      (main "rabbitmq-hash" noPassword drawFailed).stdout = "" ∧
      (main "rabbitmq-hash" noPassword drawFailed).stderr = [] ∧
      ¬ usagePrinted "rabbitmq-hash" (main "rabbitmq-hash" noPassword drawFailed) :=
  empty_password_exit "rabbitmq-hash" noPassword drawFailed rfl rfl

/-- C8: with help not requested, a non-empty password, the random source
succeeding and an algorithm other than `sha256` and `md5`, the program writes
the usage text to standard error, nothing to standard output, and exits with
code 20. -/
theorem unrecognised_algorithm_exit (prog : String) (fl : Flags) (rnd : RandOutcome)
    (hh : fl.help = false) (hp : fl.password ≠ []) (hr : rnd.err = none)
    (h1 : fl.algorithm ≠ "sha256") (h2 : fl.algorithm ≠ "md5") :
    (main prog fl rnd).stderr = Usage prog ∧ usagePrinted prog (main prog fl rnd) ∧
      (main prog fl rnd).stdout = "" ∧ (main prog fl rnd).exitCode = 20 := by
  rw [main_unrecognised prog fl rnd hh hp hr h1 h2]
  exact ⟨rfl, List.infix_refl _, rfl, rfl⟩

/-- Witness of C8: `-algorithm sha1 -password guest`. -/
theorem unrecognised_algorithm_exit_witness :
    (main "rabbitmq-hash" guestSha1 drawA).stderr = Usage "rabbitmq-hash" ∧
      usagePrinted "rabbitmq-hash" (main "rabbitmq-hash" guestSha1 drawA) ∧
      (main "rabbitmq-hash" guestSha1 drawA).stdout = "" ∧
      (main "rabbitmq-hash" guestSha1 drawA).exitCode = 20 :=
  unrecognised_algorithm_exit "rabbitmq-hash" guestSha1 drawA rfl (by decide) rfl
    (by decide) (by decide)

/-- C9: with the help flag set, whatever the password, the algorithm and the
random source, the program writes the usage text to standard error, nothing to
standard output, does not read the random source (the run does not depend on
it) and exits with code 0. -/
theorem help_exit (prog : String) (fl : Flags) (rnd : RandOutcome) (hh : fl.help = true) :
    (main prog fl rnd).stderr = Usage prog ∧ usagePrinted prog (main prog fl rnd) ∧
      (main prog fl rnd).stdout = "" ∧ (main prog fl rnd).randReads = 0 ∧
      (∀ rnd2 : RandOutcome, main prog fl rnd2 = main prog fl rnd) ∧
      (main prog fl rnd).exitCode = 0 := by
  have h := main_help prog fl rnd hh
  refine ⟨by rw [h], ?_, by rw [h], by rw [h], fun rnd2 => ?_, by rw [h]⟩
  · rw [h]
    exact List.infix_refl _
  · rw [h, main_help prog fl rnd2 hh]

/-- Witness of C9: `-help -algorithm sha1` without a password. -/
theorem help_exit_witness :
    (main "rabbitmq-hash" helpOnly drawFailed).stderr = Usage "rabbitmq-hash" ∧
      usagePrinted "rabbitmq-hash" (main "rabbitmq-hash" helpOnly drawFailed) ∧
      (main "rabbitmq-hash" helpOnly drawFailed).stdout = "" ∧
      (main "rabbitmq-hash" helpOnly drawFailed).randReads = 0 ∧
      (∀ rnd2 : RandOutcome,
        main "rabbitmq-hash" helpOnly rnd2 = main "rabbitmq-hash" helpOnly drawFailed) ∧
      (main "rabbitmq-hash" helpOnly drawFailed).exitCode = 0 :=
  help_exit "rabbitmq-hash" helpOnly drawFailed rfl

/-- C10: with help not requested and a non-empty password, a failure of the
random source ends the program with a non-zero exit code (1, from `log.Fatal`)
and nothing on standard output, whatever the algorithm flag; the exit code is
not 20 and the usage text is not written, also for an unrecognised
algorithm. -/
theorem rand_failure_exit (prog : String) (fl : Flags) (rnd : RandOutcome)
    (hh : fl.help = false) (hp : fl.password ≠ []) (hr : rnd.err ≠ none) :
    (main prog fl rnd).exitCode ≠ 0 ∧ (main prog fl rnd).exitCode = 1 ∧
      (main prog fl rnd).stdout = "" ∧ (main prog fl rnd).exitCode ≠ 20 ∧
      ¬ usagePrinted prog (main prog fl rnd) := by
  obtain ⟨e, he⟩ := Option.ne_none_iff_exists'.mp hr
  rw [main_rand_failure prog fl rnd e hh hp he]
  exact ⟨Nat.one_ne_zero, rfl, rfl, by simp, not_usage_infix_singleton prog _⟩

/-- Witness of C10: `-algorithm sha1 -password guest` with a failing random source. -/
theorem rand_failure_exit_witness :
    (main "rabbitmq-hash" guestSha1 drawFailed).exitCode ≠ 0 ∧
      (main "rabbitmq-hash" guestSha1 drawFailed).exitCode = 1 ∧
      (main "rabbitmq-hash" guestSha1 drawFailed).stdout = "" ∧
      (main "rabbitmq-hash" guestSha1 drawFailed).exitCode ≠ 20 ∧
      ¬ usagePrinted "rabbitmq-hash" (main "rabbitmq-hash" guestSha1 drawFailed) :=
  rand_failure_exit "rabbitmq-hash" guestSha1 drawFailed rfl (by decide) (by decide)

end RabbitHash
